import Mathlib

/-!
Verification development for the octochain Ouroboros node-to-node client.

The repository contains three JavaScript clients that speak the Cardano
node-to-node wire stack: a chainsync-tip client (called part 001 below), an
event-driven tip fetcher (part 002), and a lab client (the gemini client).
This file gives a shallow embedding of their mux codec, CBOR handling,
handshake, ChainSync and PeerSharing logic, and proves properties of the
embedding.  Machine integers are modelled as Nat with explicit reductions
modulo powers of two where the JavaScript performs 32-bit wrapping; the
bit-packed mux word, built in the source as a bitwise-or of a 1-bit field
shifted by 31, a 15-bit field shifted by 16 and a 16-bit field, is modelled
as the equivalent sum of disjoint fields.
-/

/-! ## Mux codec (part 001 muxFrame and MuxReader, part 002 packSegment and MuxReader) -/

/-- Big-endian 4-byte encoding of a 32-bit word, as Buffer.writeUInt32BE of
the wrapped value n >>> 0 produces. -/
def u32be (n : Nat) : List Nat :=
  [n % 4294967296 / 16777216 % 256,
   n % 4294967296 / 65536 % 256,
   n % 4294967296 / 256 % 256,
   n % 4294967296 % 256]

/-- Big-endian combination of four bytes, as Buffer.readUInt32BE performs. -/
def readU32 (b0 b1 b2 b3 : Nat) : Nat :=
  ((b0 * 256 + b1) * 256 + b2) * 256 + b3

/-- The packed second header word of a mux SDU.  In the source this is
((mode AND 1) shifted left 31) bitor ((mpid AND 0x7fff) shifted left 16)
bitor (len AND 0xffff); the three fields occupy disjoint bit ranges, so the
bitwise or equals the sum below. -/
def word1 (mode miniProtocolId len : Nat) : Nat :=
  mode % 2 * 2147483648 + miniProtocolId % 32768 * 65536 + len % 65536

/-- Mux frame encoder of part 001 (muxFrame): checks the mini-protocol id
range and the 16-bit payload-length bound, then emits the 8-byte header
(transmission time 0) followed by the payload. -/
def muxFrame (miniProtocolId mode : Nat) (payload : List Nat) :
    Except String (List Nat) :=
  if miniProtocolId > 0x7fff then .error "miniProtocolId out of range"
  else if payload.length > 0xffff then
    .error "payload too large for single mux segment"
  else .ok (u32be 0 ++ u32be (word1 mode miniProtocolId payload.length) ++ payload)

/-- Mux header of part 002 (muxHeader): transmission time word followed by
the packed word; the time is the now32 clock reading, taken as a parameter. -/
def muxHeader (modeBit miniProtocolId length t : Nat) : List Nat :=
  u32be t ++ u32be (word1 modeBit miniProtocolId length)

/-- Mux frame encoder of part 002 (packSegment): rejects payloads beyond the
16-bit length bound, then concatenates header and payload. -/
def packSegment (miniProtocolId modeBit t : Nat) (payload : List Nat) :
    Except String (List Nat) :=
  if payload.length > 0xffff then
    .error "payload too big for mux uint16 length"
  else .ok (muxHeader modeBit miniProtocolId payload.length t ++ payload)

/-- A decoded mux segment, with the fields the part 002 MuxReader hands to
onSegment (part 001 resolves the same four fields to its waiters). -/
structure MuxSegment where
  t : Nat
  modeBit : Nat
  miniProtocolId : Nat
  payload : List Nat
deriving Repr, DecidableEq

/-- Transmission-time word of a buffered header (readUInt32BE at offset 0). -/
def hdrTime (buf : List Nat) : Nat :=
  readU32 (buf.getD 0 0) (buf.getD 1 0) (buf.getD 2 0) (buf.getD 3 0)

/-- Packed word of a buffered header (readUInt32BE at offset 4). -/
def hdrWord (buf : List Nat) : Nat :=
  readU32 (buf.getD 4 0) (buf.getD 5 0) (buf.getD 6 0) (buf.getD 7 0)

/-- Mode bit extracted by the readers: (w shifted right 31) AND 1. -/
def segMode (buf : List Nat) : Nat := hdrWord buf / 2147483648 % 2

/-- Mini-protocol id extracted by the readers: (w shifted right 16) AND 0x7fff. -/
def segMpid (buf : List Nat) : Nat := hdrWord buf / 65536 % 32768

/-- Payload length extracted by the readers: w AND 0xffff. -/
def segLen (buf : List Nat) : Nat := hdrWord buf % 65536

/-- The segment-extraction loop shared by both MuxReader classes: while at
least 8 buffered bytes are present and the declared payload has fully
arrived, emit the segment and continue on the remaining bytes; otherwise
keep the buffer for the next chunk. -/
def pump (buf : List Nat) : List MuxSegment × List Nat :=
  if h : 8 ≤ buf.length ∧ 8 + segLen buf ≤ buf.length then
    let p := pump (buf.drop (8 + segLen buf))
    (⟨hdrTime buf, segMode buf, segMpid buf, (buf.drop 8).take (segLen buf)⟩ :: p.1,
     p.2)
  else ([], buf)
termination_by buf.length
decreasing_by
  simp only [List.length_drop]
  omega

/-- Feeding a sequence of chunks to the reader (MuxReader.push repeatedly),
starting from a given residual buffer; returns all emitted segments in order
and the final residual buffer. -/
def pushMany (buf : List Nat) : List (List Nat) → List MuxSegment × List Nat
  | [] => ([], buf)
  | c :: cs =>
    let p := pump (buf ++ c)
    let q := pushMany p.2 cs
    (p.1 ++ q.1, q.2)

/-! ## Decoded CBOR values and JavaScript-style access -/

/-- Dynamic CBOR value as the message layer sees it after decoding: unsigned
integers, booleans, byte strings, text, arrays and maps, plus jsUndefined for the
JavaScript undefined produced by out-of-range indexing. -/
inductive Cbor where
  | int (n : Nat)
  | bool (b : Bool)
  | bytes (bs : List Nat)
  | text (s : String)
  | arr (xs : List Cbor)
  | map (kvs : List (Cbor × Cbor))
  | jsUndefined
deriving Repr

/-- JavaScript array indexing: an out-of-range access yields undefined. -/
def jsIndex (xs : List Cbor) (i : Nat) : Cbor := xs.getD i .jsUndefined

/-- JavaScript unsigned 32-bit coercion x >>> 0 on a decoded value: numbers
wrap modulo 2 to the 32, true coerces to 1, everything else here to 0. -/
def jsUint32 : Cbor → Nat
  | .int n => n % 4294967296
  | .bool true => 1
  | _ => 0

/-! ## ChainSync tip extraction (claim C1) -/

/-- Tip extraction of part 001 (run): a reply whose first element is 6 yields
its second element, first element 5 yields its third element, anything else
is the unexpected-ChainSync-response error. -/
def p1ExtractTip (csObj : Cbor) : Except String Cbor :=
  match csObj with
  | .arr xs =>
    match xs with
    | .int 6 :: _ => .ok (jsIndex xs 1)
    | .int 5 :: _ => .ok (jsIndex xs 2)
    | _ => .error "unexpected ChainSync response"
  | _ => .error "unexpected ChainSync response"

/-- Tip extraction of part 002 (ChainSync branch of the segment handler):
on tag 5 the second element, on tag 6 the third element, else no tip. -/
def p2ExtractTip (msg : Cbor) : Option Cbor :=
  match msg with
  | .arr xs =>
    match xs with
    | .int 5 :: _ => some (jsIndex xs 1)
    | .int 6 :: _ => some (jsIndex xs 2)
    | _ => none
  | _ => none

/-- Tip extraction of the gemini lab client (handleChainSync): on tag 5 or 6
the last element of the decoded reply. -/
def geminiExtractTip (decoded : Cbor) : Option Cbor :=
  match decoded with
  | .arr xs =>
    match xs with
    | .int 5 :: _ => some (jsIndex xs (xs.length - 1))
    | .int 6 :: _ => some (jsIndex xs (xs.length - 1))
    | _ => none
  | _ => none

/-! ## Handshake proposal construction (claim C3) -/

/-- Cardano mainnet network magic, the default of all three clients. -/
def NETWORK_MAGIC : Nat := 764824073

/-- Handshake proposal of part 001 (handshakePropose): MsgProposeVersions
with versions 15 and 14 both mapped to the version data tuple
(magic, diffusionMode false, peerSharing 1 or 0, query false). -/
def handshakePropose (wantPeerSharing : Bool) : Cbor :=
  .arr [.int 0, .map [
    (.int 15, .arr [.int NETWORK_MAGIC, .bool false,
      .int (if wantPeerSharing then 1 else 0), .bool false]),
    (.int 14, .arr [.int NETWORK_MAGIC, .bool false,
      .int (if wantPeerSharing then 1 else 0), .bool false])]]

/-- Version data constructor of part 002 (mkVData). -/
def mkVData (peerSharing diffusionMode query : Bool) : Cbor :=
  .arr [.int NETWORK_MAGIC, .bool diffusionMode,
    .int (if peerSharing then 1 else 0), .bool query]

/-- Handshake proposal of part 002 (the propose message built on connect):
versions 15 and 14, both with peer sharing requested. -/
def p2Propose : Cbor :=
  .arr [.int 0, .map [
    (.int 15, mkVData true false false),
    (.int 14, mkVData true false false)]]

/-- Integer-keyed entries of the version table of a propose message. -/
def proposeTableNat (msg : Cbor) : List (Nat × Cbor) :=
  match msg with
  | .arr [_tag, .map kvs] =>
    kvs.filterMap fun kv =>
      match kv.1 with
      | .int n => some (n, kv.2)
      | _ => none
  | _ => []

/-- Version data proposed for a given version number, if any. -/
def lookupVersion (msg : Cbor) (v : Nat) : Option Cbor :=
  (proposeTableNat msg).lookup v

/-- Peer-sharing field of a version data tuple: its third element. -/
def vdataPeerSharing : Cbor → Option Cbor
  | .arr [_magic, _diffusion, ps, _query] => some ps
  | _ => none

/-! ## CBOR byte-level decoding

The CBOR codec itself is not part of the repository sources: parts 001 and
002 call the external cbor-x library and the gemini client calls the
external cbor library, building its own proposal bytes by hand.  The
decoder below is therefore modelled from the spec. -/

/-- One parsed CBOR head: either a complete scalar item, or the opening of
a container with the number of child items still to come (a map of n pairs
opens with 2n child items). -/
inductive CborHead where
  | prim (v : Cbor)
  | container (isMap : Bool) (count : Nat)

/-- Modelled from the spec: the CBOR codec component is provided by
external libraries, not by the repository sources.  Reads one
definite-length CBOR head from a byte list: small and 1, 2 and 4 byte
unsigned integers, definite byte strings, definite arrays and maps with
small counts, and the booleans F4 and F5, as the spec wire formats use. -/
def decHead : List Nat → Option (CborHead × List Nat)
  | [] => none
  | b :: rest =>
    if b ≤ 0x17 then some (.prim (.int b), rest)
    else if b = 0x18 then
      match rest with
      | v :: r => some (.prim (.int v), r)
      | [] => none
    else if b = 0x19 then
      match rest with
      | v1 :: v2 :: r => some (.prim (.int (v1 * 256 + v2)), r)
      | _ => none
    else if b = 0x1a then
      match rest with
      | v1 :: v2 :: v3 :: v4 :: r =>
        some (.prim (.int (((v1 * 256 + v2) * 256 + v3) * 256 + v4)), r)
      | _ => none
    else if 0x40 ≤ b ∧ b ≤ 0x57 then
      if b - 0x40 ≤ rest.length then
        some (.prim (.bytes (rest.take (b - 0x40))), rest.drop (b - 0x40))
      else none
    else if b = 0x58 then
      match rest with
      | n :: r =>
        if n ≤ r.length then some (.prim (.bytes (r.take n)), r.drop n)
        else none
      | [] => none
    else if 0x80 ≤ b ∧ b ≤ 0x97 then some (.container false (b - 0x80), rest)
    else if 0xa0 ≤ b ∧ b ≤ 0xb7 then some (.container true (2 * (b - 0xa0)), rest)
    else if b = 0xf4 then some (.prim (.bool false), rest)
    else if b = 0xf5 then some (.prim (.bool true), rest)
    else none

/-- Pairs up a flat list of 2n child items into the n key-value pairs of a
decoded map. -/
def pairUp : List Cbor → List (Cbor × Cbor)
  | k :: v :: rest => (k, v) :: pairUp rest
  | _ => []

/-- Builds the container value once all its children are decoded. -/
def mkContainer (isMap : Bool) (children : List Cbor) : Cbor :=
  if isMap then .map (pairUp children) else .arr children

/-- An open container on the decoding stack: kind, children still needed,
children accumulated so far in reverse. -/
structure DecFrame where
  isMap : Bool
  remaining : Nat
  acc : List Cbor

/-- Delivers a completed value to the enclosing container, cascading
completions of containers that become full. -/
def closeValue : Cbor → List DecFrame → Cbor ⊕ List DecFrame
  | v, [] => .inl v
  | v, f :: fs =>
    if f.remaining ≤ 1 then closeValue (mkContainer f.isMap ((v :: f.acc).reverse)) fs
    else .inr (⟨f.isMap, f.remaining - 1, v :: f.acc⟩ :: fs)

/-- Modelled from the spec: main decoding loop of the CBOR decoder, a
shift-reduce loop over heads with an explicit stack of open containers.
Fuel is consumed once per head; each head consumes at least one byte. -/
def parseLoop : Nat → List Nat → List DecFrame → Option (Cbor × List Nat)
  | 0, _, _ => none
  | fuel + 1, bs, stack =>
    match decHead bs with
    | none => none
    | some (.prim v, rest) =>
      match closeValue v stack with
      | .inl c => some (c, rest)
      | .inr stack1 => parseLoop fuel rest stack1
    | some (.container isMap count, rest) =>
      if count = 0 then
        match closeValue (mkContainer isMap []) stack with
        | .inl c => some (c, rest)
        | .inr stack1 => parseLoop fuel rest stack1
      else parseLoop fuel rest (⟨isMap, count, []⟩ :: stack)

/-- Modelled from the spec: decode one CBOR item from a byte list,
returning the decoded value and the remaining bytes. -/
def decodeCbor (bs : List Nat) : Option (Cbor × List Nat) :=
  parseLoop (bs.length + 1) bs []

/-! ## The gemini lab client handshake payload (claim C3) -/

/-- Version data bytes for version 10 built by the gemini client:
a 2-element array of the mainnet magic and true. -/
def v10Data : List Nat := [0x82, 0x1A, 0x2D, 0x96, 0x4A, 0x09, 0xF5]

/-- Version data bytes for version 13 built by the gemini client:
a 4-element array of the mainnet magic, true, 0 and false. -/
def v13Data : List Nat :=
  [0x84, 0x1A, 0x2D, 0x96, 0x4A, 0x09, 0xF5, 0x00, 0xF4]

/-- The hand-built MsgProposeVersions bytes of the gemini client
(buildHandshakePayload): array(2), tag 0, map(2) with key 10 mapped to
v10Data and key 13 mapped to v13Data. -/
def buildHandshakePayload : List Nat :=
  [0x82, 0x00, 0xA2] ++ ([0x0A] ++ v10Data) ++ ([0x0D] ++ v13Data)

/-- The decoded form of the gemini proposal payload. -/
def geminiProposeMsg : Cbor :=
  .arr [.int 0, .map [
    (.int 10, .arr [.int 764824073, .bool true]),
    (.int 13, .arr [.int 764824073, .bool true, .int 0, .bool false])]]

/-! ## Number formatting and peer addresses (claim C9) -/

/-- One lowercase hexadecimal digit character. -/
def hexDigit (n : Nat) : Char :=
  if n < 10 then Char.ofNat (48 + n) else Char.ofNat (87 + n)

/-- Hexadecimal digits of n, most significant first, with structural fuel;
eight digits of fuel are exact for every value below 2 to the 32, which is
all the call sites pass after the JavaScript >>> 0 coercion. -/
def hexDigitsAux : Nat → Nat → List Char
  | 0, _ => []
  | fuel + 1, n =>
    if n = 0 then [] else hexDigitsAux fuel (n / 16) ++ [hexDigit (n % 16)]

/-- JavaScript Number.prototype.toString(16) for unsigned values below
2 to the 32: "0" for zero, otherwise the hex digits without leading zeros. -/
def jsToString16 (n : Nat) : String :=
  if n = 0 then "0" else String.mk (hexDigitsAux 8 n)

/-- JavaScript String.prototype.padStart(8, "0"). -/
def padStart8 (s : String) : String :=
  if 8 ≤ s.length then s
  else String.mk (List.replicate (8 - s.length) '0' ++ s.data)

/-- One formatted IPv6 word of both clients: (x >>> 0) rendered in hex and
padded to 8 characters. -/
def hexWord32 (x : Cbor) : String := padStart8 (jsToString16 (jsUint32 x))

/-- Decimal digits of n, most significant first, with structural fuel; ten
digits of fuel are exact below 2 to the 32. -/
def decDigitsAux : Nat → Nat → List Char
  | 0, _ => []
  | fuel + 1, n =>
    if n = 0 then [] else decDigitsAux fuel (n / 10) ++ [Char.ofNat (48 + n % 10)]

/-- JavaScript Number.prototype.toString() for unsigned values below
2 to the 32. -/
def jsToString10 (n : Nat) : String :=
  if n = 0 then "0" else String.mk (decDigitsAux 10 n)

/-- IPv4 dotted-quad rendering of part 002 (ipv4FromWord32); part 001 run
builds the same string inline. -/
def ipv4FromWord32 (w : Nat) : String :=
  String.intercalate "."
    [jsToString10 (w / 16777216 % 256), jsToString10 (w / 65536 % 256),
     jsToString10 (w / 256 % 256), jsToString10 (w % 256)]

/-- A peer record produced by part 002 (parsePeerAddresses). -/
structure P2Peer where
  ip : String
  port : Nat
deriving Repr, DecidableEq

/-- One entry of part 002 parsePeerAddresses: arrays shorter than 3 are
skipped; tag 0 with exactly 3 elements is IPv4; tag 1 with exactly 6
elements is IPv6, rendered as the four 32-bit words in hex joined by
colons; every other entry is skipped. -/
def parsePeerAddress (a : Cbor) : Option P2Peer :=
  match a with
  | .arr xs =>
    if xs.length < 3 then none
    else match jsIndex xs 0 with
      | .int 0 =>
        if xs.length = 3 then
          some ⟨ipv4FromWord32 (jsUint32 (jsIndex xs 1)), jsUint32 (jsIndex xs 2)⟩
        else none
      | .int 1 =>
        if xs.length = 6 then
          some ⟨String.intercalate ":" (((xs.drop 1).take 4).map hexWord32),
            jsUint32 (jsIndex xs 5)⟩
        else none
      | _ => none
  | _ => none

/-- Part 002 parsePeerAddresses over a decoded peer-address list. -/
def parsePeerAddresses (peerAddresses : List Cbor) : List P2Peer :=
  peerAddresses.filterMap parsePeerAddress

/-- A peer record produced by part 001, whose port field is the raw decoded
value and whose fallback keeps the raw entry. -/
inductive P1Peer where
  | ipPort (ip : String) (port : Cbor)
  | raw (v : Cbor)
deriving Repr

/-- One entry of the part 001 peer mapping: non-arrays and unknown tags map
to raw records, tag 0 to an IPv4 record, tag 1 to an IPv6 record built from
the four words in hex joined by colons (no length checks in part 001). -/
def p1MapAddr (addr : Cbor) : P1Peer :=
  match addr with
  | .arr xs =>
    match jsIndex xs 0 with
    | .int 0 => .ipPort (ipv4FromWord32 (jsUint32 (jsIndex xs 1))) (jsIndex xs 2)
    | .int 1 => .ipPort (String.intercalate ":" (((xs.drop 1).take 4).map hexWord32))
        (jsIndex xs 5)
    | _ => .raw addr
  | _ => .raw addr

/-- Part 001 peer parsing of the PeerSharing reply: only a reply of the
shape [1, array] yields records. -/
def p1ParsePeers (psObj : Cbor) : List P1Peer :=
  match psObj with
  | .arr (.int 1 :: .arr addrs :: _) => addrs.map p1MapAddr
  | _ => []

/-- Number of colon-separated groups of a string. -/
def colonGroupCount (s : String) : Nat :=
  (s.data.filter fun c => c == ':').length + 1

/-! ## Run models for the three clients (claims C4, C5, C7, C8) -/

/-- An outbound message-level write: mini-protocol id, mode bit and the
CBOR payload handed to the mux encoder. -/
structure MsgWrite where
  miniProtocolId : Nat
  mode : Nat
  payload : Cbor
deriving Repr

/-- Failure outcomes of the part 001 run. -/
inductive P1Error where
  | badHandshake
  | refused (msg : Cbor)
  | unexpectedTag (msg : Cbor)
  | unexpectedChainSync (msg : Cbor)
deriving Repr

/-- Successful output of the part 001 run. -/
structure P1Output where
  version : Cbor
  versionData : Cbor
  tip : Cbor
  peers : List P1Peer
deriving Repr

/-- Classification of the handshake reply as part 001 run performs it:
non-arrays and empty arrays are bad, first element 2 is a refuse, first
element 1 is an accept, anything else is an unexpected tag. -/
inductive HsCheck where
  | bad
  | refuse
  | accept (xs : List Cbor)
  | unexpected
deriving Repr

def hsCheck : Cbor → HsCheck
  | .arr (.int 2 :: _) => .refuse
  | .arr (.int 1 :: rest) => .accept (.int 1 :: rest)
  | .arr (_ :: _) => .unexpected
  | _ => .bad

/-- First tag of a decoded handshake or protocol message, when it is an
array headed by an integer. -/
def hsTag : Cbor → Option Nat
  | .arr (.int t :: _) => some t
  | _ => none

/-- The part 001 run as a function of the control inputs: the peer-sharing
flag and the decoded handshake, ChainSync and PeerSharing replies.  Returns
the ordered message writes and the outcome.  The propose frame is written
first; a non-accept reply stops the run before any further write; on accept
the FindIntersect is written, the tip extracted, and only when peer sharing
is wanted the ShareRequest [0, 25] is written and the reply parsed. -/
def p1Run (want : Bool) (hsObj csObj psObj : Cbor) :
    List MsgWrite × Except P1Error P1Output :=
  match hsCheck hsObj with
  | .bad => ([⟨0, 0, handshakePropose want⟩], .error .badHandshake)
  | .refuse => ([⟨0, 0, handshakePropose want⟩], .error (.refused hsObj))
  | .unexpected => ([⟨0, 0, handshakePropose want⟩], .error (.unexpectedTag hsObj))
  | .accept xs =>
    match p1ExtractTip csObj with
    | .error _ =>
      ([⟨0, 0, handshakePropose want⟩, ⟨2, 0, .arr [.int 4, .arr []]⟩],
       .error (.unexpectedChainSync csObj))
    | .ok tip =>
      if want then
        ([⟨0, 0, handshakePropose want⟩, ⟨2, 0, .arr [.int 4, .arr []]⟩,
          ⟨10, 0, .arr [.int 0, .int 25]⟩],
         .ok ⟨jsIndex xs 1, jsIndex xs 2, tip, p1ParsePeers psObj⟩)
      else
        ([⟨0, 0, handshakePropose want⟩, ⟨2, 0, .arr [.int 4, .arr []]⟩],
         .ok ⟨jsIndex xs 1, jsIndex xs 2, tip, []⟩)

/-- Process exit code of part 001: the catch handler exits 1 on any error,
success ends the process normally. -/
def p1ExitCode : Except P1Error P1Output → Nat
  | .error _ => 1
  | .ok _ => 0

/-- Part 002 in-flight state (the state record of connectAndFetchTip). -/
structure P2State where
  handshakeDone : Bool
  negotiatedVersion : Option Cbor
  peers : List P2Peer
  gotTip : Bool
deriving Repr

/-- Initial part 002 state. -/
def p2State0 : P2State := ⟨false, none, [], false⟩

/-- Result record resolved by part 002 when the tip arrives. -/
structure P2Result where
  negotiatedVersion : Option Cbor
  peersDiscovered : List P2Peer
  tip : Cbor
deriving Repr

/-- Terminal events of the part 002 run: kill (socket destroyed and promise
rejected, carrying the diagnostic and the offending message) or resolve. -/
inductive P2Event where
  | killed (note : String) (detail : Cbor)
  | resolved (r : P2Result)
deriving Repr

/-- Process exit code of part 002: resolve exits 0, rejection exits 1. -/
def p2EventExitCode : P2Event → Nat
  | .killed _ _ => 1
  | .resolved _ => 0

/-- The decoded-array coercion used before iterating peer addresses. -/
def jsArr : Cbor → List Cbor
  | .arr xs => xs
  | _ => []

/-- The part 002 segment handler (the body of the MuxReader callback in
connectAndFetchTip), dispatching on the mini-protocol id only.  Handshake
tag 1 records the session and writes the ShareRequest then the
FindIntersect; tag 2 kills the run; other handshake messages are ignored.
A PeerSharing [1, addrs] message appends parsed peers.  A ChainSync tag 5
or 6 message resolves the run with the extracted tip.  Everything else is
ignored. -/
def p2OnSegment (st : P2State) (_modeBit miniProtocolId : Nat) (msg : Cbor) :
    P2State × List MsgWrite × Option P2Event :=
  if miniProtocolId = 0 then
    match msg with
    | .arr (.int 1 :: rest) =>
      ({ st with
          handshakeDone := true
          negotiatedVersion := some (jsIndex (.int 1 :: rest) 1) },
       [⟨10, 0, .arr [.int 0, .int 8]⟩, ⟨2, 0, .arr [.int 4, .arr []]⟩], none)
    | .arr (.int 2 :: rest) =>
      (st, [], some (.killed "Handshake refused" (.arr (.int 2 :: rest))))
    | _ => (st, [], none)
  else if miniProtocolId = 10 then
    match msg with
    | .arr (.int 1 :: rest) =>
      ({ st with peers :=
          st.peers ++ parsePeerAddresses (jsArr (jsIndex (.int 1 :: rest) 1)) },
       [], none)
    | _ => (st, [], none)
  else if miniProtocolId = 2 then
    match p2ExtractTip msg with
    | some tip =>
      ({ st with gotTip := true }, [],
       some (.resolved ⟨st.negotiatedVersion, st.peers, tip⟩))
    | none => (st, [], none)
  else (st, [], none)

/-- The frame filter part 001 registers while awaiting the handshake reply:
only mini-protocol 0 in responder mode matches; frames matching no waiter
are dropped by the MuxReader. -/
def p1HandshakeFilter (mp mode : Nat) : Bool := mp == 0 && mode == 1

/-- Observable actions of the gemini lab client. -/
inductive GAction where
  | write (protocolId : Nat) (payload : List Nat)
  | logAccept (version : Cbor)
  | logRefuse (detail : Cbor)
  | logTip (tip : Cbor)
  | destroy
deriving Repr

/-- Actions of the gemini client on connect: write the hand-built proposal
on protocol 0. -/
def geminiConnectActions : List GAction := [.write 0 buildHandshakePayload]

/-- The gemini handshake handler (handleHandshake): on accept, log the
version and write the FindIntersect bytes 82 04 80 on protocol 2; on
refuse, log element 2 of the reply and destroy the socket; otherwise do
nothing. -/
def geminiHandleHandshake (decoded : Cbor) : List GAction :=
  match decoded with
  | .arr xs =>
    match xs with
    | .int 1 :: _ => [.logAccept (jsIndex xs 1), .write 2 [0x82, 0x04, 0x80]]
    | .int 2 :: _ => [.logRefuse (jsIndex xs 2), .destroy]
    | _ => []
  | _ => []

/-- The gemini ChainSync handler (handleChainSync): on tag 5 or 6, log the
tip (the last element) and destroy the socket. -/
def geminiHandleChainSync (decoded : Cbor) : List GAction :=
  match geminiExtractTip decoded with
  | some tip => [.logTip tip, .destroy]
  | none => []

/-- Protocol id of a gemini write action. -/
def gActionProtocol : GAction → Option Nat
  | .write pid _ => some pid
  | _ => none

/-! ## Theorems -/

theorem pump_pos {buf : List Nat}
    (h : 8 ≤ buf.length ∧ 8 + segLen buf ≤ buf.length) :
    pump buf =
      (⟨hdrTime buf, segMode buf, segMpid buf, (buf.drop 8).take (segLen buf)⟩ ::
        (pump (buf.drop (8 + segLen buf))).1,
       (pump (buf.drop (8 + segLen buf))).2) := by
  rw [pump, dif_pos h]

theorem pump_neg {buf : List Nat}
    (h : ¬(8 ≤ buf.length ∧ 8 + segLen buf ≤ buf.length)) :
    pump buf = ([], buf) := by
  rw [pump, dif_neg h]

theorem pump_nil : pump [] = ([], []) :=
  pump_neg (by simp)

theorem hdrTime_append (buf extra : List Nat) (h : 8 ≤ buf.length) :
    hdrTime (buf ++ extra) = hdrTime buf := by
  unfold hdrTime
  rw [List.getD_append _ _ _ _ (by omega), List.getD_append _ _ _ _ (by omega),
    List.getD_append _ _ _ _ (by omega), List.getD_append _ _ _ _ (by omega)]

theorem hdrWord_append (buf extra : List Nat) (h : 8 ≤ buf.length) :
    hdrWord (buf ++ extra) = hdrWord buf := by
  unfold hdrWord
  rw [List.getD_append _ _ _ _ (by omega), List.getD_append _ _ _ _ (by omega),
    List.getD_append _ _ _ _ (by omega), List.getD_append _ _ _ _ (by omega)]

theorem pump_append (n : Nat) : ∀ buf extra : List Nat, buf.length ≤ n →
    pump (buf ++ extra) =
      ((pump buf).1 ++ (pump ((pump buf).2 ++ extra)).1,
       (pump ((pump buf).2 ++ extra)).2) := by
  induction n with
  | zero =>
    intro buf extra h
    have hb : buf = [] := List.eq_nil_of_length_eq_zero (Nat.le_zero.mp h)
    subst hb
    simp [pump_nil]
  | succ n ih =>
    intro buf extra h
    by_cases hr : 8 ≤ buf.length ∧ 8 + segLen buf ≤ buf.length
    · have hw : hdrWord (buf ++ extra) = hdrWord buf := hdrWord_append buf extra hr.1
      have htm : hdrTime (buf ++ extra) = hdrTime buf := hdrTime_append buf extra hr.1
      have hlen : segLen (buf ++ extra) = segLen buf := by
        simp [segLen, hw]
      have hmode : segMode (buf ++ extra) = segMode buf := by
        simp [segMode, hw]
      have hmpid : segMpid (buf ++ extra) = segMpid buf := by
        simp [segMpid, hw]
      have hr2 : 8 ≤ (buf ++ extra).length ∧
          8 + segLen (buf ++ extra) ≤ (buf ++ extra).length := by
        rw [hlen, List.length_append]
        omega
      have hdrop : (buf ++ extra).drop (8 + segLen buf) =
          buf.drop (8 + segLen buf) ++ extra :=
        List.drop_append_of_le_length hr.2
      have hpay : ((buf ++ extra).drop 8).take (segLen buf) =
          (buf.drop 8).take (segLen buf) := by
        rw [List.drop_append_of_le_length hr.1,
          List.take_append_of_le_length (by simp only [List.length_drop]; omega)]
      have hrec : (buf.drop (8 + segLen buf)).length ≤ n := by
        simp only [List.length_drop]
        omega
      have hih := ih (buf.drop (8 + segLen buf)) extra hrec
      rw [pump_pos hr2, pump_pos hr]
      simp only [hlen, htm, hmode, hmpid, hpay, hdrop, hih]
      simp
    · have heq : pump buf = ([], buf) := pump_neg hr
      rw [heq]
      simp

theorem pump_residual (n : Nat) : ∀ buf : List Nat, buf.length ≤ n →
    pump (pump buf).2 = ([], (pump buf).2) := by
  induction n with
  | zero =>
    intro buf h
    have hb : buf = [] := List.eq_nil_of_length_eq_zero (Nat.le_zero.mp h)
    subst hb
    rw [pump_nil, pump_nil]
  | succ n ih =>
    intro buf h
    by_cases hr : 8 ≤ buf.length ∧ 8 + segLen buf ≤ buf.length
    · have h2 : (pump buf).2 = (pump (buf.drop (8 + segLen buf))).2 := by
        rw [pump_pos hr]
      have hrec : (buf.drop (8 + segLen buf)).length ≤ n := by
        simp only [List.length_drop]
        omega
      rw [h2]
      exact ih (buf.drop (8 + segLen buf)) hrec
    · have heq : pump buf = ([], buf) := pump_neg hr
      rw [heq, heq]

theorem pushMany_flatten : ∀ (chunks : List (List Nat)) (buf : List Nat),
    pump buf = ([], buf) →
    pushMany buf chunks = pump (buf ++ chunks.flatten) := by
  intro chunks
  induction chunks with
  | nil =>
    intro buf hinv
    simp [pushMany, hinv.symm]
  | cons c cs ih =>
    intro buf hinv
    have happ := pump_append (buf ++ c).length (buf ++ c) cs.flatten (le_refl _)
    have hres := pump_residual (buf ++ c).length (buf ++ c) (le_refl _)
    have hih := ih (pump (buf ++ c)).2 hres
    simp only [pushMany, hih]
    rw [List.flatten_cons, show buf ++ (c ++ cs.flatten) = (buf ++ c) ++ cs.flatten by
      simp [List.append_assoc], happ]

theorem readU32_u32be (w : Nat) :
    readU32 (w % 4294967296 / 16777216 % 256) (w % 4294967296 / 65536 % 256)
      (w % 4294967296 / 256 % 256) (w % 4294967296 % 256) = w % 4294967296 := by
  unfold readU32
  omega

theorem pump_muxBytes (t mode mpid : Nat) (payload : List Nat)
    (hmode : mode ≤ 1) (hmpid : mpid ≤ 32767) (hlen : payload.length ≤ 65535) :
    pump (muxHeader mode mpid payload.length t ++ payload) =
      ([⟨t % 4294967296, mode, mpid, payload⟩], []) := by
  have hweq : word1 mode mpid payload.length =
      mode * 2147483648 + mpid * 65536 + payload.length := by
    unfold word1
    omega
  have hwlt : word1 mode mpid payload.length < 4294967296 := by
    unfold word1
    omega
  have hword : hdrWord (muxHeader mode mpid payload.length t ++ payload) =
      word1 mode mpid payload.length := by
    simp only [muxHeader, u32be, List.cons_append, List.nil_append, hdrWord,
      List.getD_cons_zero, List.getD_cons_succ]
    rw [readU32_u32be]
    exact Nat.mod_eq_of_lt hwlt
  have htime : hdrTime (muxHeader mode mpid payload.length t ++ payload) =
      t % 4294967296 := by
    simp only [muxHeader, u32be, List.cons_append, List.nil_append, hdrTime,
      List.getD_cons_zero, List.getD_cons_succ]
    exact readU32_u32be t
  have hL : (muxHeader mode mpid payload.length t ++ payload).length =
      8 + payload.length := by
    simp [muxHeader, u32be]
    omega
  have hlen2 : segLen (muxHeader mode mpid payload.length t ++ payload) =
      payload.length := by
    unfold segLen
    rw [hword, hweq]
    omega
  have hmode2 : segMode (muxHeader mode mpid payload.length t ++ payload) = mode := by
    unfold segMode
    rw [hword, hweq]
    omega
  have hmpid2 : segMpid (muxHeader mode mpid payload.length t ++ payload) = mpid := by
    unfold segMpid
    rw [hword, hweq]
    omega
  have hguard : 8 ≤ (muxHeader mode mpid payload.length t ++ payload).length ∧
      8 + segLen (muxHeader mode mpid payload.length t ++ payload) ≤
        (muxHeader mode mpid payload.length t ++ payload).length := by
    rw [hL, hlen2]
    omega
  rw [pump_pos hguard, htime, hmode2, hmpid2, hlen2]
  have hhdr8 : (muxHeader mode mpid payload.length t).length = 8 := by
    simp [muxHeader, u32be]
  have hdrop8 : (muxHeader mode mpid payload.length t ++ payload).drop 8 = payload := by
    rw [show (8 : Nat) = (muxHeader mode mpid payload.length t).length from hhdr8.symm,
      List.drop_left]
  have hdropAll : (muxHeader mode mpid payload.length t ++ payload).drop
      (8 + payload.length) = [] := by
    apply List.drop_eq_nil_of_le
    omega
  rw [hdrop8, hdropAll, List.take_length, pump_nil]

/-- C2: decoding the bytes produced by either mux encoder (muxFrame of part
001, packSegment of part 002) yields back exactly the same mini-protocol id,
mode bit and payload, for every id up to 32767, mode bit 0 or 1, and payload
of at most 65535 bytes. -/
theorem c2_mux_roundtrip (miniProtocolId mode t : Nat) (payload : List Nat)
    (hmpid : miniProtocolId ≤ 32767) (hmode : mode ≤ 1)
    (hlen : payload.length ≤ 65535) :
    (∃ frame, muxFrame miniProtocolId mode payload = .ok frame ∧
      pump frame = ([⟨0, mode, miniProtocolId, payload⟩], [])) ∧
    (∃ frame, packSegment miniProtocolId mode t payload = .ok frame ∧
      pump frame = ([⟨t % 4294967296, mode, miniProtocolId, payload⟩], [])) := by
  constructor
  · refine ⟨u32be 0 ++ u32be (word1 mode miniProtocolId payload.length) ++ payload,
      ?_, ?_⟩
    · unfold muxFrame
      rw [if_neg (by omega), if_neg (by omega)]
    · have h := pump_muxBytes 0 mode miniProtocolId payload hmode hmpid hlen
      simpa [muxHeader, List.append_assoc] using h
  · refine ⟨muxHeader mode miniProtocolId payload.length t ++ payload, ?_, ?_⟩
    · unfold packSegment
      rw [if_neg (by omega)]
    · exact pump_muxBytes t mode miniProtocolId payload hmode hmpid hlen

theorem c2_mux_roundtrip_witness :
    (∃ frame, muxFrame 2 1 [9] = .ok frame ∧
      pump frame = ([⟨0, 1, 2, [9]⟩], [])) ∧
    (∃ frame, packSegment 2 1 5 [9] = .ok frame ∧
      pump frame = ([⟨5 % 4294967296, 1, 2, [9]⟩], [])) :=
  c2_mux_roundtrip 2 1 5 [9] (by decide) (by decide) (by decide)

/-- C6: both mux encoders accept a payload of exactly 65535 bytes, and for
any payload of 65536 bytes or more they return an error instead of any
frame bytes. -/
theorem c6_oversize_rejected (miniProtocolId mode t : Nat) (payload : List Nat)
    (hmpid : miniProtocolId ≤ 32767) :
    (payload.length ≤ 65535 →
      (∃ frame, muxFrame miniProtocolId mode payload = .ok frame) ∧
      (∃ frame, packSegment miniProtocolId mode t payload = .ok frame)) ∧
    (65536 ≤ payload.length →
      muxFrame miniProtocolId mode payload =
        .error "payload too large for single mux segment" ∧
      packSegment miniProtocolId mode t payload =
        .error "payload too big for mux uint16 length") := by
  constructor
  · intro h
    refine ⟨⟨u32be 0 ++ u32be (word1 mode miniProtocolId payload.length) ++ payload, ?_⟩,
      ⟨muxHeader mode miniProtocolId payload.length t ++ payload, ?_⟩⟩
    · unfold muxFrame
      rw [if_neg (by omega), if_neg (by omega)]
    · unfold packSegment
      rw [if_neg (by omega)]
  · intro h
    constructor
    · unfold muxFrame
      rw [if_neg (by omega), if_pos (by omega)]
    · unfold packSegment
      rw [if_pos (by omega)]

theorem c6_oversize_rejected_witness :
    muxFrame 2 0 (List.replicate 65536 0) =
      .error "payload too large for single mux segment" ∧
    packSegment 2 0 0 (List.replicate 65536 0) =
      .error "payload too big for mux uint16 length" :=
  (c6_oversize_rejected 2 0 0 (List.replicate 65536 0) (by decide)).2
    (by rw [List.length_replicate])

/-- C10: the mux decoder is insensitive to chunk boundaries; feeding any two
partitions of the same byte sequence to the reader emits the same segments
in the same order with the same residual buffer. -/
theorem c10_chunking_insensitive (p q : List (List Nat))
    (h : p.flatten = q.flatten) :
    pushMany [] p = pushMany [] q := by
  rw [pushMany_flatten p [] pump_nil, pushMany_flatten q [] pump_nil, h]

theorem c10_chunking_insensitive_witness :
    pushMany [] [[0, 0], [0, 0, 0, 0, 0, 1, 7], []] =
      pushMany [] [[], [0, 0, 0, 0], [0, 0, 0, 1, 7]] :=
  c10_chunking_insensitive _ _ (by decide)

/-! ## Claim C1 -/

/-- C1 counterexample: the claim says that for a reply of the shape
[5, point, tip] the client returns the third element as the tip; the part
002 client instead returns the second element, the point, on such a reply. -/
theorem c1_tip_extraction_counterexample :
    p2ExtractTip (.arr [.int 5, .arr [], .arr [.int 7, .int 9]]) =
      some (.arr []) ∧
    (Cbor.arr [] ≠ Cbor.arr [.int 7, .int 9]) := by
  constructor
  · rfl
  · intro h
    simp at h

/-- C1 amended: the tag reading differs between the clients.  Part 001 reads
tag 5 as IntersectFound [5, point, tip] (tip is the third element) and tag 6
as IntersectNotFound [6, tip] (tip is the second element), as the claim
states; part 002 reads the opposite assignment, returning the second element
for a tag-5 reply and the third for a tag-6 reply; the gemini lab client
reads the literal last element of the reply for either tag. -/
theorem c1_tip_extraction_amended (p t : Cbor) :
    p1ExtractTip (.arr [.int 5, p, t]) = .ok t ∧
    p1ExtractTip (.arr [.int 6, t]) = .ok t ∧
    p2ExtractTip (.arr [.int 5, t]) = some t ∧
    p2ExtractTip (.arr [.int 6, p, t]) = some t ∧
    geminiExtractTip (.arr [.int 5, p, t]) = some t ∧
    geminiExtractTip (.arr [.int 6, t]) = some t :=
  ⟨rfl, rfl, rfl, rfl, rfl, rfl⟩

/-! ## Claim C3 -/

/-- C3 counterexample: the claim says the first handshake message of the
client proposes at minimum versions 14 and 15; the gemini lab client's first
handshake message decodes to a proposal whose version table has exactly the
keys 10 and 13, so it contains neither 14 nor 15. -/
theorem c3_propose_versions_counterexample :
    decodeCbor buildHandshakePayload = some (geminiProposeMsg, []) ∧
    (proposeTableNat geminiProposeMsg).map Prod.fst = [10, 13] ∧
    lookupVersion geminiProposeMsg 14 = none ∧
    lookupVersion geminiProposeMsg 15 = none :=
  ⟨rfl, rfl, rfl, rfl⟩

/-- C3 amended: part 001 proposes versions 14 and 15, both mapped to
(magic, false, 1 if peer sharing is wanted else 0, false), as the claim
states, and part 002 proposes versions 14 and 15 both mapped to
(magic, false, 1, false) with peer sharing hard-wired on; but the gemini
lab client proposes versions 10 and 13 instead, with diffusion mode true,
so the claim does not hold of its first handshake message. -/
theorem c3_propose_versions_amended (want : Bool) :
    lookupVersion (handshakePropose want) 14 =
      some (.arr [.int 764824073, .bool false,
        .int (if want then 1 else 0), .bool false]) ∧
    lookupVersion (handshakePropose want) 15 =
      some (.arr [.int 764824073, .bool false,
        .int (if want then 1 else 0), .bool false]) ∧
    lookupVersion p2Propose 14 =
      some (.arr [.int 764824073, .bool false, .int 1, .bool false]) ∧
    lookupVersion p2Propose 15 =
      some (.arr [.int 764824073, .bool false, .int 1, .bool false]) ∧
    decodeCbor buildHandshakePayload = some (geminiProposeMsg, []) ∧
    lookupVersion geminiProposeMsg 14 = none ∧
    lookupVersion geminiProposeMsg 15 = none := by
  cases want <;> exact ⟨rfl, rfl, rfl, rfl, rfl, rfl, rfl⟩

theorem hexDigitsAux_length_le (fuel : Nat) : ∀ n : Nat,
    (hexDigitsAux fuel n).length ≤ fuel := by
  induction fuel with
  | zero => intro n; simp [hexDigitsAux]
  | succ f ih =>
    intro n
    unfold hexDigitsAux
    split
    · simp
    · have := ih (n / 16)
      simp only [List.length_append, List.length_cons, List.length_nil]
      omega

theorem jsToString16_length_le (n : Nat) : (jsToString16 n).length ≤ 8 := by
  unfold jsToString16
  split
  · decide
  · exact hexDigitsAux_length_le 8 n

theorem padStart8_length (s : String) (h : s.length ≤ 8) :
    (padStart8 s).length = 8 := by
  unfold padStart8
  split
  · omega
  · show (List.replicate (8 - s.length) '0' ++ s.data).length = 8
    have h2 : s.data.length = s.length := rfl
    simp only [List.length_append, List.length_replicate]
    omega

theorem hexWord32_length (x : Cbor) : (hexWord32 x).length = 8 :=
  padStart8_length _ (jsToString16_length_le _)

/-- C9 counterexample: the claim says the IPv6 address string consists of 8
colon-separated groups; the code produces 4 colon-separated groups of 8 hex
digits each, one per 32-bit word. -/
theorem c9_ipv6_format_counterexample :
    parsePeerAddresses
      [.arr [.int 1, .int 0x20010DB8, .int 0, .int 0, .int 1, .int 3001]] =
      [⟨"20010db8:00000000:00000000:00000001", 3001⟩] ∧
    colonGroupCount "20010db8:00000000:00000000:00000001" = 4 ∧
    colonGroupCount "20010db8:00000000:00000000:00000001" ≠ 8 := by
  refine ⟨?_, by decide, by decide⟩
  rfl

/-- C9 amended: a decoded IPv6 entry [1, w0, w1, w2, w3, port] is rendered
as 4 colon-separated groups of 8 hexadecimal digits, one group per 32-bit
word, paired with the given port (reduced modulo 2 to the 32 in part 002,
kept raw in part 001). -/
theorem c9_ipv6_format_amended (w0 w1 w2 w3 port : Nat) :
    parsePeerAddress (.arr [.int 1, .int w0, .int w1, .int w2, .int w3, .int port]) =
      some ⟨String.intercalate ":"
        [hexWord32 (.int w0), hexWord32 (.int w1),
         hexWord32 (.int w2), hexWord32 (.int w3)], port % 4294967296⟩ ∧
    p1MapAddr (.arr [.int 1, .int w0, .int w1, .int w2, .int w3, .int port]) =
      .ipPort (String.intercalate ":"
        [hexWord32 (.int w0), hexWord32 (.int w1),
         hexWord32 (.int w2), hexWord32 (.int w3)]) (.int port) ∧
    (hexWord32 (.int w0)).length = 8 ∧ (hexWord32 (.int w1)).length = 8 ∧
    (hexWord32 (.int w2)).length = 8 ∧ (hexWord32 (.int w3)).length = 8 :=
  ⟨rfl, rfl, hexWord32_length _, hexWord32_length _,
   hexWord32_length _, hexWord32_length _⟩

/-! ## Claim C4 -/

/-- C4 counterexample: the claim says the refuse reason is surfaced and the
process exits non-zero; the gemini lab client logs element 2 of the refuse
reply, which is undefined because the reason is element 1, then merely
destroys the socket (its action list contains no failure exit), so the
reason is not surfaced there. -/
theorem c4_refuse_counterexample :
    geminiHandleHandshake
      (.arr [.int 2, .arr [.text "VersionMismatch", .arr [.int 15, .int 14]]]) =
      [.logRefuse .jsUndefined, .destroy] ∧
    Cbor.jsUndefined ≠ Cbor.arr [.text "VersionMismatch", .arr [.int 15, .int 14]] :=
  ⟨rfl, fun h => Cbor.noConfusion h⟩

/-- C4 amended: in parts 001 and 002 a tag-2 handshake reply terminates the
run with an error carrying the refuse message, the process exits 1, and
only the handshake proposal has been written; the gemini lab client instead
logs element 2 of the reply (undefined, the reason being element 1) and
destroys the socket without a failure exit, writing nothing further. -/
theorem c4_refuse_amended (want : Bool) (rest : List Cbor) (cs ps : Cbor)
    (st : P2State) :
    p1Run want (.arr (.int 2 :: rest)) cs ps =
      ([⟨0, 0, handshakePropose want⟩],
       .error (.refused (.arr (.int 2 :: rest)))) ∧
    p1ExitCode (.error (.refused (.arr (.int 2 :: rest)))) = 1 ∧
    p2OnSegment st 1 0 (.arr (.int 2 :: rest)) =
      (st, [], some (.killed "Handshake refused" (.arr (.int 2 :: rest)))) ∧
    p2EventExitCode (.killed "Handshake refused" (.arr (.int 2 :: rest))) = 1 ∧
    geminiHandleHandshake (.arr (.int 2 :: rest)) =
      [.logRefuse (jsIndex (.int 2 :: rest) 2), .destroy] :=
  ⟨rfl, rfl, rfl, rfl, rfl⟩

/-! ## Claim C5 -/

/-- C5 counterexample: the claim says a tag-3 MsgQueryReply is treated as a
failure and not silently ignored; the part 002 handshake handler, on a
tag-3 reply, leaves the state unchanged, writes nothing and raises no
event, so the message is silently ignored. -/
theorem c5_query_reply_counterexample :
    p2OnSegment p2State0 1 0 (.arr [.int 3, .map []]) = (p2State0, [], none) :=
  rfl

/-- C5 amended: part 001 fails the run on a tag-3 handshake reply with an
unexpected-tag error, exiting 1 with only the proposal written, as the
claim states; the part 002 handler silently ignores a tag-3 reply, leaving
state, writes and events untouched, so the run can fail only later through
the session timeout. -/
theorem c5_query_reply_amended (want : Bool) (rest : List Cbor) (cs ps : Cbor)
    (st : P2State) :
    p1Run want (.arr (.int 3 :: rest)) cs ps =
      ([⟨0, 0, handshakePropose want⟩],
       .error (.unexpectedTag (.arr (.int 3 :: rest)))) ∧
    p1ExitCode (.error (.unexpectedTag (.arr (.int 3 :: rest)))) = 1 ∧
    p2OnSegment st 1 0 (.arr (.int 3 :: rest)) = (st, [], none) :=
  ⟨rfl, rfl, rfl⟩

/-! ## Claim C7 -/

theorem hsCheck_accept_tag {hs : Cbor} {xs : List Cbor}
    (h : hsCheck hs = .accept xs) : hsTag hs = some 1 := by
  unfold hsCheck at h
  split at h <;> simp_all [hsTag]

/-- The writes of a part 001 run: always the proposal first; the
FindIntersect only under an accepted handshake; the ShareRequest only
additionally under the peer-sharing flag. -/
theorem p1Run_writes (want : Bool) (hs cs ps : Cbor) :
    (p1Run want hs cs ps).1 = [⟨0, 0, handshakePropose want⟩] ∨
    ((p1Run want hs cs ps).1 =
      [⟨0, 0, handshakePropose want⟩, ⟨2, 0, .arr [.int 4, .arr []]⟩] ∧
      hsTag hs = some 1) ∨
    ((p1Run want hs cs ps).1 =
      [⟨0, 0, handshakePropose want⟩, ⟨2, 0, .arr [.int 4, .arr []]⟩,
       ⟨10, 0, .arr [.int 0, .int 25]⟩] ∧
      hsTag hs = some 1 ∧ want = true) := by
  unfold p1Run
  split
  · exact Or.inl rfl
  · exact Or.inl rfl
  · exact Or.inl rfl
  · rename_i xs heq
    have htag := hsCheck_accept_tag heq
    split
    · exact Or.inr (Or.inl ⟨rfl, htag⟩)
    · split
      · rename_i hwant
        exact Or.inr (Or.inr ⟨rfl, htag, hwant⟩)
      · exact Or.inr (Or.inl ⟨rfl, htag⟩)

/-- C7 counterexample: the claim says no inbound non-handshake message is
acted on before a handshake accept; the part 002 dispatcher, in its initial
state with handshakeDone still false, resolves the whole run from a
ChainSync segment, acting on it before any accept. -/
theorem c7_pre_accept_counterexample :
    p2State0.handshakeDone = false ∧
    p2OnSegment p2State0 1 2 (.arr [.int 5, .int 42]) =
      ({ p2State0 with gotTip := true }, [],
       some (.resolved ⟨none, [], .int 42⟩)) :=
  ⟨rfl, rfl⟩

/-- C7 amended: no client writes a non-handshake segment before a handshake
accept: every part 001 write on a mini-protocol other than 0 happens in a
run whose handshake reply had tag 1, the part 002 handler emits writes only
from a tag-1 handshake message, and part 001 drops inbound non-handshake
frames while awaiting the handshake since its only registered filter
matches mini-protocol 0 alone; the part 002 dispatcher, however, does act
on inbound ChainSync segments even before an accept, resolving the run from
its initial state. -/
theorem c7_pre_accept_amended :
    (∀ (want : Bool) (hs cs ps : Cbor) (w : MsgWrite),
      w ∈ (p1Run want hs cs ps).1 → w.miniProtocolId ≠ 0 → hsTag hs = some 1) ∧
    (∀ (st : P2State) (mb mpid : Nat) (msg : Cbor),
      mpid ≠ 0 → (p2OnSegment st mb mpid msg).2.1 = []) ∧
    (∀ (st : P2State) (mb : Nat) (msg : Cbor),
      hsTag msg ≠ some 1 → (p2OnSegment st mb 0 msg).2.1 = []) ∧
    (∀ mp mode : Nat, mp ≠ 0 → p1HandshakeFilter mp mode = false) ∧
    p2OnSegment p2State0 1 2 (.arr [.int 6, .arr [], .int 5]) =
      ({ p2State0 with gotTip := true }, [],
       some (.resolved ⟨none, [], .int 5⟩)) := by
  refine ⟨?_, ?_, ?_, ?_, rfl⟩
  · intro want hs cs ps w hw hmp
    rcases p1Run_writes want hs cs ps with h | ⟨h, htag⟩ | ⟨h, htag, _⟩
    · rw [h] at hw
      simp at hw
      rw [hw] at hmp
      simp at hmp
    · exact htag
    · exact htag
  · intro st mb mpid msg hmp
    unfold p2OnSegment
    rw [if_neg hmp]
    split
    · split <;> rfl
    · split
      · split <;> rfl
      · rfl
  · intro st mb msg htag
    unfold p2OnSegment
    rw [if_pos rfl]
    split
    · simp [hsTag] at htag
    · rfl
    · rfl
  · intro mp mode hmp
    unfold p1HandshakeFilter
    simp
    intro h
    exact absurd h hmp

theorem c7_pre_accept_amended_witness : p1HandshakeFilter 2 1 = false :=
  c7_pre_accept_amended.2.2.2.1 2 1 (by decide)

/-! ## Claim C8 -/

/-- C8: if the handshake proposal carries peerSharing 0 in the version data
of its proposed versions, no MsgShareRequest is ever transmitted.  In part
001 a proposal with peerSharing 0 means the flag is off, and every write of
such a run avoids mini-protocol 10; part 002 always proposes peerSharing 1,
so the hypothesis never holds of it; the gemini client proposes peerSharing
0 for version 13 and its actions write only on protocols 0 and 2, never a
ShareRequest on protocol 10. -/
theorem c8_no_share_request :
    (∀ (want : Bool) (v : Nat) (vd : Cbor),
      lookupVersion (handshakePropose want) v = some vd →
      vdataPeerSharing vd = some (.int 0) →
      ∀ (hs cs ps : Cbor) (w : MsgWrite),
        w ∈ (p1Run want hs cs ps).1 → w.miniProtocolId ≠ 10) ∧
    (∀ (v : Nat) (vd : Cbor),
      lookupVersion p2Propose v = some vd →
      vdataPeerSharing vd = some (.int 1)) ∧
    (lookupVersion geminiProposeMsg 13 =
      some (.arr [.int 764824073, .bool true, .int 0, .bool false]) ∧
     vdataPeerSharing (.arr [.int 764824073, .bool true, .int 0, .bool false]) =
      some (.int 0)) ∧
    (∀ (msg : Cbor) (pid : Nat) (payload : List Nat),
      (GAction.write pid payload ∈ geminiConnectActions → pid = 0) ∧
      (GAction.write pid payload ∈ geminiHandleHandshake msg → pid = 2) ∧
      (GAction.write pid payload ∈ geminiHandleChainSync msg → False)) := by
  refine ⟨?_, ?_, ⟨rfl, rfl⟩, ?_⟩
  · intro want v vd hlook hps hs cs ps w hw
    cases want with
    | true =>
      exfalso
      simp [lookupVersion, proposeTableNat, handshakePropose, List.lookup] at hlook
      split at hlook
      · simp at hlook
        rw [hlook.symm] at hps
        simp [vdataPeerSharing] at hps
      · split at hlook
        · simp at hlook
          rw [hlook.symm] at hps
          simp [vdataPeerSharing] at hps
        · simp at hlook
    | false =>
      rcases p1Run_writes false hs cs ps with h | ⟨h, _⟩ | ⟨_, _, habs⟩
      · rw [h] at hw
        simp at hw
        rw [hw]
        simp
      · rw [h] at hw
        simp at hw
        rcases hw with hw | hw <;> (rw [hw]; simp)
      · exact absurd habs (by simp)
  · intro v vd hlook
    simp [lookupVersion, proposeTableNat, p2Propose, List.lookup] at hlook
    split at hlook
    · simp at hlook
      rw [hlook.symm]
      rfl
    · split at hlook
      · simp at hlook
        rw [hlook.symm]
        rfl
      · simp at hlook
  · intro msg pid payload
    refine ⟨?_, ?_, ?_⟩
    · intro hmem
      simp [geminiConnectActions] at hmem
      exact hmem.1
    · intro hmem
      unfold geminiHandleHandshake at hmem
      split at hmem
      · split at hmem
        · simp at hmem
          exact hmem.1
        · simp at hmem
        · simp at hmem
      · simp at hmem
    · intro hmem
      unfold geminiHandleChainSync at hmem
      split at hmem
      · simp at hmem
      · simp at hmem

theorem c8_no_share_request_witness :
    (⟨0, 0, handshakePropose false⟩ : MsgWrite).miniProtocolId ≠ 10 :=
  c8_no_share_request.1 false 14
    (.arr [.int 764824073, .bool false, .int 0, .bool false]) rfl rfl
    .jsUndefined .jsUndefined .jsUndefined ⟨0, 0, handshakePropose false⟩
    (by rw [show (p1Run false .jsUndefined .jsUndefined .jsUndefined).1 =
      [⟨0, 0, handshakePropose false⟩] from rfl]
        exact List.mem_singleton_self _)
